import Mathlib

/-!
Verification of the compoker planning-poker client (src/ui/store.ts and the
Svelte components) against its natural-language specification.

The embedding below translates the TypeScript client store into Lean:
JavaScript `Record<string, Vote>` objects become association lists whose
values are `Option Vote` (`none` models a JS `null`/`undefined` value written
into the record), the module-level mutable variables `currentSession`,
`currentIssue` and `myVote` become fields of an explicit `ClientState`, and
each `messageHandlers` entry becomes a pure state-transformer. Outbound
requests return the message that `sendJson` would put on the socket as an
`Option OutMsg` (`none` when the socket is closing or closed and the send is
dropped).
-/

namespace Compoker

/-- Vote enum of src/ui/store.ts (the variant with the client-only `Secret`
marker), in declaration order. -/
inductive Vote where
  | Secret
  | Unknown
  | One
  | Two
  | Three
  | Five
  | Eight
  | Thirteen
  | TwentyOne
  | Infinite
deriving DecidableEq, Repr

/-- SessionJoinError enum of src/ui/store.ts. -/
inductive SessionJoinError where
  | UnknownSession
  | ParticipantNameTaken
deriving DecidableEq, Repr

/-- VotingState enum of src/ui/store.ts. -/
inductive VotingState where
  | Opening
  | Voting
  | Closing
deriving DecidableEq, Repr

/-- A JS `Record<string, Vote>` as an association list in key insertion
order; the value is `none` when the JS code stored `null`/`undefined` under
the key (possible because `myVote` starts unset). -/
abbrev VotesMap := List (String × Option Vote)

/-- Assignment `m[k] = v` on a JS record: overwrite in place when the key
exists, append otherwise. -/
def recordSet : VotesMap → String → Option Vote → VotesMap
  | [], k, v => [(k, v)]
  | (k₀, v₀) :: rest, k, v =>
      if k₀ = k then (k, v) :: rest else (k₀, v₀) :: recordSet rest k v

/-- Property read `m[k]` on a JS record: `none` when the key is absent. -/
def recordGet : VotesMap → String → Option (Option Vote)
  | [], _ => none
  | (k₀, v₀) :: rest, k => if k₀ = k then some v₀ else recordGet rest k

/-- Truthiness of `m[k]` in JS: a present, non-null vote value (every enum
string is a nonempty string, hence truthy); absent keys and null values are
falsy. -/
def voteTruthy (m : VotesMap) (k : String) : Bool :=
  match recordGet m k with
  | some (some _) => true
  | _ => false

/-- VotingIssue interface of src/ui/store.ts. -/
structure VotingIssue where
  id : Nat
  state : VotingState
  votes : VotesMap
  trello_card : Option String
  outcome : Vote
deriving DecidableEq, Repr

/-- VotingSession interface of src/ui/store.ts (the session-store part of
the Partial value: error, id, my_name, participants; the current issue lives
in the separate issue store). The id is `Option Nat` because the
SessionJoinErrorResponse handler can store a JS `null` there. -/
structure VotingSession where
  error : Option SessionJoinError
  id : Option Nat
  my_name : String
  participants : List String
deriving DecidableEq, Repr

/-- Whole-client state: the session store value, the issue store value
(kept in sync with the module variable `currentIssue`), and the module
variable `myVote` (`none` before any vote is cast or after a new issue is
announced). -/
structure ClientState where
  session : VotingSession
  issue : VotingIssue
  myVote : Option Vote
deriving DecidableEq, Repr

/-- blankSession constant of src/ui/store.ts. -/
def blankSession : VotingSession :=
  { error := none, id := some 0, my_name := "", participants := [] }

/-- blankIssue constant of src/ui/store.ts. -/
def blankIssue : VotingIssue :=
  { trello_card := none, id := 0, votes := [], state := VotingState.Opening,
    outcome := Vote.Unknown }

/-- Initial client state built from the blank constants. -/
def blankClient : ClientState :=
  { session := blankSession, issue := blankIssue, myVote := none }

/-- Outbound protocol messages built by the client (the argument of
`sendJson`). -/
inductive OutMsg where
  | CreateSessionRequest (participant_name : String)
  | JoinSessionRequest (participant_name : String) (session_id : Option Nat)
  | TopicChangeRequest (trello_card : String)
  | VoteRequest (issue_id : Nat) (vote : Vote)
deriving DecidableEq, Repr

/-- sendJson of src/ui/store.ts: the message reaches the socket only while
`socket.readyState <= 1` (CONNECTING or OPEN); otherwise the call returns
without sending and without raising. -/
def sendJson (readyState : Nat) (m : OutMsg) : Option OutMsg :=
  if readyState ≤ 1 then some m else none

/-- createSession of src/ui/store.ts: overwrites `currentSession.my_name`,
then hands a CreateSessionRequest to sendJson. Returns the new state and
what was actually sent. -/
def createSession (st : ClientState) (readyState : Nat) (my_name : String) :
    ClientState × Option OutMsg :=
  ({ st with session := { st.session with my_name := my_name } },
   sendJson readyState (OutMsg.CreateSessionRequest my_name))

/-- joinSession of src/ui/store.ts: overwrites `currentSession.my_name`,
then hands a JoinSessionRequest to sendJson. -/
def joinSession (st : ClientState) (readyState : Nat) (session_id : Option Nat)
    (my_name : String) : ClientState × Option OutMsg :=
  ({ st with session := { st.session with my_name := my_name } },
   sendJson readyState (OutMsg.JoinSessionRequest my_name session_id))

/-- changeTopic of src/ui/store.ts: no local state change, hands a
TopicChangeRequest to sendJson. -/
def changeTopic (st : ClientState) (readyState : Nat) (trello_card : String) :
    ClientState × Option OutMsg :=
  (st, sendJson readyState (OutMsg.TopicChangeRequest trello_card))

/-- castVote of src/ui/store.ts: records the vote in the module variable
`myVote`, then hands a VoteRequest tagged with `currentIssue.id` to
sendJson. -/
def castVote (st : ClientState) (readyState : Nat) (vote : Vote) :
    ClientState × Option OutMsg :=
  ({ st with myVote := some vote },
   sendJson readyState (OutMsg.VoteRequest st.issue.id vote))

/-- messageHandlers.SessionInfoResponse of src/ui/store.ts: clears the
error, adopts the server session id and roster, and replaces the issue
store value with the received issue (the userInfoStore side effect is
outside this model). -/
def handleSessionInfoResponse (st : ClientState) (session_id : Nat)
    (current_issue : VotingIssue) (current_participants : List String) :
    ClientState :=
  { st with
    session := { st.session with
                 error := none, id := some session_id,
                 participants := current_participants },
    issue := current_issue }

/-- messageHandlers.SessionJoinErrorResponse of src/ui/store.ts: stores the
error; keeps the announced session id only for ParticipantNameTaken,
otherwise stores a JS null. -/
def handleSessionJoinErrorResponse (st : ClientState) (session_id : Nat)
    (error : SessionJoinError) : ClientState :=
  { st with
    session := { st.session with
                 id := if error = SessionJoinError.ParticipantNameTaken
                       then some session_id else none,
                 error := some error } }

/-- messageHandlers.ParticipantJoinAnnouncement of src/ui/store.ts: pushes
the announced name onto the roster (the userInfoStore side effect is
outside this model). -/
def handleParticipantJoinAnnouncement (st : ClientState)
    (participant_name : String) : ClientState :=
  { st with
    session := { st.session with
                 participants := st.session.participants ++ [participant_name] } }

/-- messageHandlers.ParticipantLeaveAnnouncement of src/ui/store.ts: filters
the departing name out of the roster. -/
def handleParticipantLeaveAnnouncement (st : ClientState)
    (participant_name : String) : ClientState :=
  { st with
    session := { st.session with
                 participants :=
                   st.session.participants.filter
                     (fun p => decide (p ≠ participant_name)) } }

/-- messageHandlers.VotingIssueAnnouncement of src/ui/store.ts: replaces the
issue store value and resets `myVote` to null. -/
def handleVotingIssueAnnouncement (st : ClientState)
    (voting_issue : VotingIssue) : ClientState :=
  { st with issue := voting_issue, myVote := none }

/-- messageHandlers.VoteReceiptAnnouncement of src/ui/store.ts: ignored when
the announced issue id differs from the current issue id; records the own
`myVote` under the own name; records the opaque `Vote.Secret` for every
other participant. -/
def handleVoteReceiptAnnouncement (st : ClientState)
    (participant_name : String) (issue_id : Nat) : ClientState :=
  if st.issue.id ≠ issue_id then st
  else if participant_name = st.session.my_name then
    { st with issue := { st.issue with
        votes := recordSet st.issue.votes participant_name st.myVote } }
  else
    { st with issue := { st.issue with
        votes := recordSet st.issue.votes participant_name (some Vote.Secret) } }

/-- messageHandlers.VotingResultsRevelation of src/ui/store.ts: ignored when
the announced issue id differs from the current issue id; otherwise moves
the issue to Closing and adopts the revealed votes map and outcome. -/
def handleVotingResultsRevelation (st : ClientState) (issue_id : Nat)
    (votes : VotesMap) (outcome : Vote) : ClientState :=
  if st.issue.id ≠ issue_id then st
  else
    { st with issue := { st.issue with
        state := VotingState.Closing, votes := votes, outcome := outcome } }

/-- Payload of an inbound protocol envelope: one constructor per payload
shape appearing in the messageHandlers object of src/ui/store.ts. -/
inductive Payload where
  | sessionInfo (session_id : Nat) (current_issue : VotingIssue)
      (current_participants : List String)
  | joinError (session_id : Nat) (error : SessionJoinError)
  | participant (participant_name : String)
  | issueAnn (voting_issue : VotingIssue)
  | receipt (participant_name : String) (issue_id : Nat)
  | revelation (issue_id : Nat) (votes : VotesMap) (outcome : Vote)
deriving DecidableEq, Repr

/-- Keys of the messageHandlers object literal in src/ui/store.ts: exactly
the message types for which `messageHandlers.hasOwnProperty` holds. -/
def messageHandlerTags : List String :=
  ["SessionInfoResponse", "SessionJoinErrorResponse",
   "ParticipantJoinAnnouncement", "ParticipantLeaveAnnouncement",
   "VotingIssueAnnouncement", "VoteReceiptAnnouncement",
   "VotingResultsRevelation"]

/-- Socket message listener of src/ui/store.ts: the first key of the decoded
single-key envelope selects the handler; an envelope whose key is not an own
property of messageHandlers is only logged and changes nothing. A payload
whose shape does not match the selected handler also leaves the state
unchanged (the real flow never produces one). -/
def handleEnvelope (st : ClientState) (tag : String) (p : Payload) :
    ClientState :=
  if tag = "SessionInfoResponse" then
    match p with
    | Payload.sessionInfo a b c => handleSessionInfoResponse st a b c
    | _ => st
  else if tag = "SessionJoinErrorResponse" then
    match p with
    | Payload.joinError a b => handleSessionJoinErrorResponse st a b
    | _ => st
  else if tag = "ParticipantJoinAnnouncement" then
    match p with
    | Payload.participant a => handleParticipantJoinAnnouncement st a
    | _ => st
  else if tag = "ParticipantLeaveAnnouncement" then
    match p with
    | Payload.participant a => handleParticipantLeaveAnnouncement st a
    | _ => st
  else if tag = "VotingIssueAnnouncement" then
    match p with
    | Payload.issueAnn a => handleVotingIssueAnnouncement st a
    | _ => st
  else if tag = "VoteReceiptAnnouncement" then
    match p with
    | Payload.receipt a b => handleVoteReceiptAnnouncement st a b
    | _ => st
  else if tag = "VotingResultsRevelation" then
    match p with
    | Payload.revelation a b c => handleVotingResultsRevelation st a b c
    | _ => st
  else st

/-- Own enumerable keys of a session store value, in the order of
blankSession (spreads in the handlers preserve this key set). -/
def sessionOwnKeys : List String := ["error", "id", "my_name", "participants"]

/-- Replacer array of the JSON.stringify call in saveState
(src/ui/store.ts): only properties named here reach the localStorage
entry. -/
def saveStateReplacer : List String := ["id", "my_name"]

/-- Keys present in the persisted localStorage entry: the own keys of the
session value restricted by the stringify replacer array. -/
def persistedKeys : List String :=
  sessionOwnKeys.filter (fun k => decide (k ∈ saveStateReplacer))

/-- Shape of the persisted localStorage entry: id and my_name only. The id
is `Option Nat` because a stored JS null round-trips through JSON. -/
structure PersistedState where
  id : Option Nat
  my_name : String
deriving DecidableEq, Repr

/-- JS comparison `x > 0` where x may be null: null > 0 is false. -/
def jsIdPositive : Option Nat → Bool
  | some n => 0 < n
  | none => false

/-- Startup logic of createSessionStore (src/ui/store.ts): with a persisted
entry whose id > 0, the client waits for the socket to open and then calls
joinSession with the persisted id and name; this is the join request that
call produces. No persisted entry, or a non-positive id, sends nothing. -/
def startupRejoinMessage (persisted : Option PersistedState) : Option OutMsg :=
  match persisted with
  | none => none
  | some p =>
      if jsIdPositive p.id then
        some (OutMsg.JoinSessionRequest p.my_name p.id)
      else none

/-- Vote-presence cell of SessionParticipantList.svelte (lines 30 to 34):
the checkmark is shown exactly when `currentIssue.votes[participant]` is
truthy. -/
def hasVotedIndicator (issue : VotingIssue) (p : String) : Bool :=
  voteTruthy issue.votes p

/-- Vote-value cell of SessionParticipantList.svelte (lines 40 to 42): the
vote value is rendered only when the issue state is Closing and the entry is
truthy; otherwise the cell is empty. -/
def displayedVoteValue (issue : VotingIssue) (p : String) : Option Vote :=
  if issue.state = VotingState.Closing ∧ voteTruthy issue.votes p then
    match recordGet issue.votes p with
    | some v => v
    | none => none
  else none

/-- Object.keys(Vote) in VotingArea.svelte: member names of the string enum
in declaration order. -/
def voteEnumKeys : List Vote :=
  [Vote.Secret, Vote.Unknown, Vote.One, Vote.Two, Vote.Three, Vote.Five,
   Vote.Eight, Vote.Thirteen, Vote.TwentyOne, Vote.Infinite]

/-- availableVotes of VotingArea.svelte: Object.keys(Vote) after shift()
removed the first key; one VoteCard per remaining key, each casting exactly
its own vote. -/
def availableVotes : List Vote := voteEnumKeys.tail

/-- Modelled from the spec: position of a vote in the ordered vocabulary
`{Unknown, One, Two, Three, Five, Eight, Thirteen, TwentyOne, Infinite}`
used by the outcome rule of the server-side closeVoting, which is not under
src/ (the Rust server source holds only the actor and webserver skeleton).
Secret is a client-only marker, never among cast votes; it shares the
bottom position with Unknown. -/
def voteIdx : Vote → Nat
  | Vote.Secret => 0
  | Vote.Unknown => 0
  | Vote.One => 1
  | Vote.Two => 2
  | Vote.Three => 3
  | Vote.Five => 4
  | Vote.Eight => 5
  | Vote.Thirteen => 6
  | Vote.TwentyOne => 7
  | Vote.Infinite => 8

/-- Modelled from the spec: a cast vote counts toward the maximum exactly
when it is numeric, that is, not the non-numeric Unknown (and not the
client-only Secret marker, which a server vote map never holds). -/
def isNumericVote (v : Vote) : Bool :=
  decide (v ≠ Vote.Unknown) && decide (v ≠ Vote.Secret)

/-- Modelled from the spec: the larger of two votes in the ordered
vocabulary. -/
def maxVote (a b : Vote) : Vote :=
  if voteIdx a < voteIdx b then b else a

/-- Modelled from the spec: the outcome rule of closeVoting, absent from
src/. If all cast votes are numeric and equal the outcome is that value;
otherwise the outcome is the maximum numeric vote cast, Unknown votes and
non-voters excluded; with no numeric votes the outcome is Unknown. -/
def computeOutcome (votes : List Vote) : Vote :=
  match votes.filter isNumericVote with
  | [] => Vote.Unknown
  | v :: rest => rest.foldl maxVote v

/-- Modelled from the spec: issue state as the server holds it, with real
vote values (one entry per participant who voted). -/
structure ServerIssue where
  id : Nat
  state : VotingState
  votes : List (String × Vote)
  outcome : Vote
deriving DecidableEq, Repr

/-- Modelled from the spec: closeVoting transitions the current issue to
Closing and computes the outcome from the cast votes; this server operation
is not under src/. -/
def closeVoting (i : ServerIssue) : ServerIssue :=
  { i with
    state := VotingState.Closing,
    outcome := computeOutcome (i.votes.map Prod.snd) }

/-! Helper lemmas about the record operations and the outcome fold. -/

theorem recordGet_recordSet_self (m : VotesMap) (k : String) (v : Option Vote) :
    recordGet (recordSet m k v) k = some v := by
  induction m with
  | nil => simp [recordSet, recordGet]
  | cons hd tl ih =>
      obtain ⟨k₀, v₀⟩ := hd
      by_cases h : k₀ = k
      · simp [recordSet, recordGet, h]
      · simp [recordSet, recordGet, h, ih]

theorem maxVote_eq_or (a b : Vote) : maxVote a b = a ∨ maxVote a b = b := by
  unfold maxVote
  split
  · exact Or.inr rfl
  · exact Or.inl rfl

theorem le_maxVote_left (a b : Vote) : voteIdx a ≤ voteIdx (maxVote a b) := by
  unfold maxVote
  split
  · omega
  · exact Nat.le_refl _

theorem le_maxVote_right (a b : Vote) : voteIdx b ≤ voteIdx (maxVote a b) := by
  unfold maxVote
  split
  · exact Nat.le_refl _
  · omega

theorem maxVote_self (v : Vote) : maxVote v v = v := by
  unfold maxVote
  simp

theorem foldl_maxVote_mem (l : List Vote) (a : Vote) :
    l.foldl maxVote a ∈ a :: l := by
  induction l generalizing a with
  | nil => simp
  | cons b tl ih =>
      simp only [List.foldl_cons]
      have h := ih (maxVote a b)
      rcases List.mem_cons.1 h with h₁ | h₁
      · rcases maxVote_eq_or a b with h₂ | h₂
        · rw [h₁, h₂]
          exact List.mem_cons_self _ _
        · rw [h₁, h₂]
          exact List.mem_cons_of_mem _ (List.mem_cons_self _ _)
      · exact List.mem_cons_of_mem _ (List.mem_cons_of_mem _ h₁)

theorem voteIdx_le_foldl_self (l : List Vote) (a : Vote) :
    voteIdx a ≤ voteIdx (l.foldl maxVote a) := by
  induction l generalizing a with
  | nil => exact Nat.le_refl _
  | cons b tl ih =>
      exact Nat.le_trans (le_maxVote_left a b) (ih (maxVote a b))

theorem le_foldl_maxVote (l : List Vote) (a w : Vote) (hw : w ∈ a :: l) :
    voteIdx w ≤ voteIdx (l.foldl maxVote a) := by
  induction l generalizing a with
  | nil =>
      simp only [List.mem_cons, List.not_mem_nil, or_false] at hw
      rw [hw]
      exact Nat.le_refl _
  | cons b tl ih =>
      simp only [List.foldl_cons]
      rcases List.mem_cons.1 hw with h₁ | h₁
      · rw [h₁]
        exact Nat.le_trans (le_maxVote_left a b) (voteIdx_le_foldl_self tl _)
      · rcases List.mem_cons.1 h₁ with h₂ | h₂
        · rw [h₂]
          exact Nat.le_trans (le_maxVote_right a b) (voteIdx_le_foldl_self tl _)
        · exact ih (maxVote a b) (List.mem_cons_of_mem _ h₂)

theorem foldl_maxVote_const (l : List Vote) (v : Vote)
    (h : ∀ w ∈ l, w = v) : l.foldl maxVote v = v := by
  induction l with
  | nil => rfl
  | cons b tl ih =>
      have hb : b = v := h b (List.mem_cons_self _ _)
      simp only [List.foldl_cons, hb, maxVote_self]
      exact ih (fun w hw => h w (List.mem_cons_of_mem _ hw))

/-! Claim theorems. -/

/-- C7: the castable votes are exactly the ordered set Unknown, One, Two,
Three, Five, Eight, Thirteen, TwentyOne, Infinite: the voting area offers
one card per enum key after removing the first key, so the internal Secret
marker is never castable. -/
theorem c7_available_votes :
    availableVotes =
      [Vote.Unknown, Vote.One, Vote.Two, Vote.Three, Vote.Five, Vote.Eight,
       Vote.Thirteen, Vote.TwentyOne, Vote.Infinite] ∧
    Vote.Secret ∉ availableVotes := by
  constructor
  · rfl
  · decide

/-- C8: processing a ParticipantLeaveAnnouncement for name x removes every
occurrence of x from the roster, keeps the remaining entries as an in-order
sublist of the original roster, and leaves the multiplicity of every other
name unchanged. -/
theorem c8_leave_removes_exactly (st : ClientState) (x : String) :
    x ∉ (handleParticipantLeaveAnnouncement st x).session.participants ∧
    (handleParticipantLeaveAnnouncement st x).session.participants.Sublist
      st.session.participants ∧
    ∀ y : String, y ≠ x →
      (handleParticipantLeaveAnnouncement st x).session.participants.count y =
        st.session.participants.count y := by
  refine ⟨?_, ?_, ?_⟩
  · intro hmem
    simp only [handleParticipantLeaveAnnouncement, List.mem_filter,
      decide_eq_true_eq, ne_eq, not_true_eq_false, and_false] at hmem
  · exact List.filter_sublist _
  · intro y hy
    exact List.count_filter (by simpa using hy)

/-- C8 witness: a concrete departure of Alice from a roster holding Alice
twice around Bob empties all Alice entries and keeps the Bob count. -/
theorem c8_leave_removes_exactly_witness :
    "Alice" ∉ (handleParticipantLeaveAnnouncement
        { blankClient with session :=
            { blankSession with participants := ["Alice", "Bob", "Alice"] } }
        "Alice").session.participants ∧
    (handleParticipantLeaveAnnouncement
        { blankClient with session :=
            { blankSession with participants := ["Alice", "Bob", "Alice"] } }
        "Alice").session.participants.count "Bob" =
      (["Alice", "Bob", "Alice"] : List String).count "Bob" :=
  ⟨(c8_leave_removes_exactly
      { blankClient with session :=
          { blankSession with participants := ["Alice", "Bob", "Alice"] } }
      "Alice").1,
   (c8_leave_removes_exactly
      { blankClient with session :=
          { blankSession with participants := ["Alice", "Bob", "Alice"] } }
      "Alice").2.2 "Bob" (by decide)⟩

/-- C10: processing a ParticipantJoinAnnouncement appends the announced name
to the end of the roster unconditionally, so a name already present occurs
at least twice afterwards: the client does not enforce name uniqueness. -/
theorem c10_join_appends_unconditionally (st : ClientState) (n : String) :
    (handleParticipantJoinAnnouncement st n).session.participants =
      st.session.participants ++ [n] ∧
    (n ∈ st.session.participants →
      2 ≤ (handleParticipantJoinAnnouncement st n).session.participants.count n) := by
  refine ⟨rfl, ?_⟩
  intro hmem
  have h1 : 0 < st.session.participants.count n := List.count_pos_iff.2 hmem
  simp only [handleParticipantJoinAnnouncement, List.count_append,
    List.count_singleton, beq_self_eq_true, if_true]
  omega

/-- C10 witness: announcing Dana into a roster already holding Dana yields a
roster with two Dana entries. -/
theorem c10_join_appends_unconditionally_witness :
    2 ≤ (handleParticipantJoinAnnouncement
        { blankClient with session :=
            { blankSession with participants := ["Dana"] } }
        "Dana").session.participants.count "Dana" :=
  (c10_join_appends_unconditionally
      { blankClient with session :=
          { blankSession with participants := ["Dana"] } }
      "Dana").2 (by decide)

/-- C1: vote secrecy on the client. A vote receipt for a participant other
than the local user records only the opaque Vote.Secret marker under that
name; a receipt for the local user records the vote the user last cast, so
a participant always sees their own cast value; and the participant list
renders no vote value at all while the issue state is not Closing, only the
has-voted indicator. -/
theorem c1_vote_secrecy :
    (∀ (st : ClientState) (a : String) (iid : Nat),
        st.issue.id = iid → a ≠ st.session.my_name →
        recordGet (handleVoteReceiptAnnouncement st a iid).issue.votes a =
          some (some Vote.Secret)) ∧
    (∀ (st : ClientState) (ready : Nat) (v : Vote),
        recordGet (handleVoteReceiptAnnouncement (castVote st ready v).1
            (castVote st ready v).1.session.my_name
            (castVote st ready v).1.issue.id).issue.votes
          (castVote st ready v).1.session.my_name = some (some v)) ∧
    (∀ (issue : VotingIssue) (p : String),
        issue.state ≠ VotingState.Closing → displayedVoteValue issue p = none) := by
  refine ⟨?_, ?_, ?_⟩
  · intro st a iid hid hne
    unfold handleVoteReceiptAnnouncement
    rw [if_neg (fun h => h hid), if_neg hne]
    exact recordGet_recordSet_self _ _ _
  · intro st ready v
    unfold castVote handleVoteReceiptAnnouncement
    rw [if_neg (fun h => h rfl), if_pos rfl]
    exact recordGet_recordSet_self _ _ _
  · intro issue p hst
    unfold displayedVoteValue
    rw [if_neg (fun h => hst h.1)]

/-- C1 witness: on a concrete Voting issue, a receipt for Alice arriving at
the client of Bob stores Vote.Secret; a receipt for Bob after Bob cast Five
stores Five; and the Alice row displays no value while state is Voting. -/
theorem c1_vote_secrecy_witness :
    recordGet (handleVoteReceiptAnnouncement
        { blankClient with
          session := { blankSession with my_name := "Bob" },
          issue := { blankIssue with id := 1, state := VotingState.Voting } }
        "Alice" 1).issue.votes "Alice" = some (some Vote.Secret) ∧
    recordGet (handleVoteReceiptAnnouncement
        (castVote
          { blankClient with
            session := { blankSession with my_name := "Bob" },
            issue := { blankIssue with id := 1, state := VotingState.Voting } }
          1 Vote.Five).1
        "Bob" 1).issue.votes "Bob" = some (some Vote.Five) ∧
    displayedVoteValue
        { blankIssue with
          id := 1, state := VotingState.Voting,
          votes := [("Alice", some Vote.Secret)] } "Alice" = none :=
  ⟨c1_vote_secrecy.1
      { blankClient with
        session := { blankSession with my_name := "Bob" },
        issue := { blankIssue with id := 1, state := VotingState.Voting } }
      "Alice" 1 rfl (by decide),
   c1_vote_secrecy.2.1
      { blankClient with
        session := { blankSession with my_name := "Bob" },
        issue := { blankIssue with id := 1, state := VotingState.Voting } }
      1 Vote.Five,
   c1_vote_secrecy.2.2
      { blankIssue with
        id := 1, state := VotingState.Voting,
        votes := [("Alice", some Vote.Secret)] } "Alice" (by decide)⟩

/-- C3: a VotingResultsRevelation matching the current issue id moves the
issue to Closing and replaces the local votes map and outcome with the true
values carried in the message, leaving the issue id and the session part
untouched. -/
theorem c3_revelation_on_close (st : ClientState) (iid : Nat)
    (votes : VotesMap) (outcome : Vote) (hid : st.issue.id = iid) :
    (handleVotingResultsRevelation st iid votes outcome).issue.state =
      VotingState.Closing ∧
    (handleVotingResultsRevelation st iid votes outcome).issue.votes = votes ∧
    (handleVotingResultsRevelation st iid votes outcome).issue.outcome = outcome ∧
    (handleVotingResultsRevelation st iid votes outcome).issue.id = st.issue.id ∧
    (handleVotingResultsRevelation st iid votes outcome).session = st.session := by
  unfold handleVotingResultsRevelation
  rw [if_neg (fun h => h hid)]
  exact ⟨rfl, rfl, rfl, rfl, rfl⟩

/-- C3 witness: a concrete revelation for issue 1 at a client on issue 1
closes the issue and adopts the revealed map and outcome. -/
theorem c3_revelation_on_close_witness :
    (handleVotingResultsRevelation
        { blankClient with
          issue := { blankIssue with id := 1, state := VotingState.Voting } }
        1 [("Alice", some Vote.Five), ("Bob", some Vote.Eight)]
        Vote.Eight).issue.state = VotingState.Closing ∧
    (handleVotingResultsRevelation
        { blankClient with
          issue := { blankIssue with id := 1, state := VotingState.Voting } }
        1 [("Alice", some Vote.Five), ("Bob", some Vote.Eight)]
        Vote.Eight).issue.votes =
      [("Alice", some Vote.Five), ("Bob", some Vote.Eight)] :=
  ⟨(c3_revelation_on_close
      { blankClient with
        issue := { blankIssue with id := 1, state := VotingState.Voting } }
      1 [("Alice", some Vote.Five), ("Bob", some Vote.Eight)]
      Vote.Eight rfl).1,
   (c3_revelation_on_close
      { blankClient with
        issue := { blankIssue with id := 1, state := VotingState.Voting } }
      1 [("Alice", some Vote.Five), ("Bob", some Vote.Eight)]
      Vote.Eight rfl).2.1⟩

/-- C4: every VoteRequest the client sends carries the current issue id, and
a VoteReceiptAnnouncement or VotingResultsRevelation whose issue id differs
from the current issue id leaves the whole client state unchanged. -/
theorem c4_stale_issue_ignored :
    (∀ (st : ClientState) (ready : Nat) (v : Vote),
        (castVote st ready v).2 = none ∨
        (castVote st ready v).2 = some (OutMsg.VoteRequest st.issue.id v)) ∧
    (∀ (st : ClientState) (name : String) (iid : Nat),
        st.issue.id ≠ iid → handleVoteReceiptAnnouncement st name iid = st) ∧
    (∀ (st : ClientState) (iid : Nat) (votes : VotesMap) (outcome : Vote),
        st.issue.id ≠ iid →
        handleVotingResultsRevelation st iid votes outcome = st) := by
  refine ⟨?_, ?_, ?_⟩
  · intro st ready v
    unfold castVote sendJson
    by_cases h : ready ≤ 1
    · rw [if_pos h]
      exact Or.inr rfl
    · rw [if_neg h]
      exact Or.inl rfl
  · intro st name iid hne
    unfold handleVoteReceiptAnnouncement
    rw [if_pos hne]
  · intro st iid votes outcome hne
    unfold handleVotingResultsRevelation
    rw [if_pos hne]

/-- C4 witness: a receipt and a revelation tagged with issue 7 arriving at a
client whose current issue is 0 change nothing. -/
theorem c4_stale_issue_ignored_witness :
    handleVoteReceiptAnnouncement blankClient "Alice" 7 = blankClient ∧
    handleVotingResultsRevelation blankClient 7 [("Alice", some Vote.Five)]
      Vote.Five = blankClient :=
  ⟨c4_stale_issue_ignored.2.1 blankClient "Alice" 7 (by decide),
   c4_stale_issue_ignored.2.2 blankClient 7 [("Alice", some Vote.Five)]
     Vote.Five (by decide)⟩

/-- C5: the first key of the decoded envelope selects the handler, and an
envelope whose message type has no entry in the messageHandlers object is
only logged: it leaves the client state untouched. -/
theorem c5_unknown_message_ignored (st : ClientState) (tag : String)
    (p : Payload) (h : tag ∉ messageHandlerTags) :
    handleEnvelope st tag p = st := by
  simp only [messageHandlerTags, List.mem_cons, List.not_mem_nil, or_false,
    not_or] at h
  obtain ⟨h₁, h₂, h₃, h₄, h₅, h₆, h₇⟩ := h
  unfold handleEnvelope
  rw [if_neg h₁, if_neg h₂, if_neg h₃, if_neg h₄, if_neg h₅, if_neg h₆,
    if_neg h₇]

/-- C5 witness: an envelope with the unregistered type EchoRequest leaves
the blank client unchanged. -/
theorem c5_unknown_message_ignored_witness :
    handleEnvelope blankClient "EchoRequest" (Payload.participant "Alice") =
      blankClient :=
  c5_unknown_message_ignored blankClient "EchoRequest"
    (Payload.participant "Alice") (by decide)

/-- C2: outcome rule of the spec-modelled closeVoting. With all cast votes
numeric and equal the outcome is that value; with at least one numeric vote
the outcome is a numeric vote cast and no numeric vote cast exceeds it; with
no numeric votes the outcome is Unknown; and the two spec scenarios hold:
Five and Eight close to Eight, three Threes close to Three. -/
theorem c2_close_voting_outcome :
    (∀ (vs : List Vote) (v : Vote), isNumericVote v = true → vs ≠ [] →
        (∀ w ∈ vs, w = v) → computeOutcome vs = v) ∧
    (∀ vs : List Vote, vs.filter isNumericVote ≠ [] →
        computeOutcome vs ∈ vs.filter isNumericVote ∧
        ∀ w ∈ vs.filter isNumericVote,
          voteIdx w ≤ voteIdx (computeOutcome vs)) ∧
    (∀ vs : List Vote, vs.filter isNumericVote = [] →
        computeOutcome vs = Vote.Unknown) ∧
    closeVoting
        { id := 1, state := VotingState.Voting,
          votes := [("Alice", Vote.Five), ("Bob", Vote.Eight)],
          outcome := Vote.Unknown } =
      { id := 1, state := VotingState.Closing,
        votes := [("Alice", Vote.Five), ("Bob", Vote.Eight)],
        outcome := Vote.Eight } ∧
    computeOutcome [Vote.Three, Vote.Three, Vote.Three] = Vote.Three := by
  refine ⟨?_, ?_, ?_, by decide, by decide⟩
  · intro vs v hv hne hall
    have hfil : vs.filter isNumericVote = vs := by
      apply List.filter_eq_self.mpr
      intro a ha
      rw [hall a ha]
      exact hv
    unfold computeOutcome
    rw [hfil]
    cases vs with
    | nil => exact absurd rfl hne
    | cons w rest =>
        have hw : w = v := hall w (List.mem_cons_self _ _)
        subst hw
        exact foldl_maxVote_const rest w
          (fun x hx => hall x (List.mem_cons_of_mem _ hx))
  · intro vs hne
    unfold computeOutcome
    cases hf : vs.filter isNumericVote with
    | nil => exact absurd hf hne
    | cons v rest =>
        exact ⟨foldl_maxVote_mem rest v,
               fun w hw => le_foldl_maxVote rest v w hw⟩
  · intro vs hf
    unfold computeOutcome
    rw [hf]

/-- C2 witness: the unanimity branch applied at three Threes and the
maximum branch applied at Five and Eight, with every hypothesis discharged
on these concrete vote lists. -/
theorem c2_close_voting_outcome_witness :
    computeOutcome [Vote.Three, Vote.Three, Vote.Three] = Vote.Three ∧
    computeOutcome [Vote.Five, Vote.Eight] ∈
      ([Vote.Five, Vote.Eight] : List Vote).filter isNumericVote ∧
    computeOutcome [Vote.Unknown, Vote.Unknown] = Vote.Unknown :=
  ⟨c2_close_voting_outcome.1 [Vote.Three, Vote.Three, Vote.Three] Vote.Three
      (by decide) (by decide) (by decide),
   (c2_close_voting_outcome.2.1 [Vote.Five, Vote.Eight] (by decide)).1,
   c2_close_voting_outcome.2.2.1 [Vote.Unknown, Vote.Unknown] (by decide)⟩

/-- C6: every key that survives the JSON.stringify replacer of saveState is
id or my_name, so the localStorage entry never holds participants, error or
any issue data; and a persisted entry with positive id makes the startup
logic produce a JoinSessionRequest carrying that id and name. -/
theorem c6_persisted_state :
    (∀ k ∈ persistedKeys, k = "id" ∨ k = "my_name") ∧
    "participants" ∉ persistedKeys ∧
    "error" ∉ persistedKeys ∧
    (∀ (n : Nat) (name : String), 0 < n →
        startupRejoinMessage (some { id := some n, my_name := name }) =
          some (OutMsg.JoinSessionRequest name (some n))) := by
  refine ⟨by decide, by decide, by decide, ?_⟩
  intro n name h
  simp [startupRejoinMessage, jsIdPositive, h]

/-- C6 witness: the key id is among the persisted keys and is id or
my_name, and a persisted session 5 named Carol produces the rejoin request
for session 5 as Carol. -/
theorem c6_persisted_state_witness :
    ("id" = "id" ∨ "id" = "my_name") ∧
    startupRejoinMessage (some { id := some 5, my_name := "Carol" }) =
      some (OutMsg.JoinSessionRequest "Carol" (some 5)) :=
  ⟨c6_persisted_state.1 "id" (by decide),
   c6_persisted_state.2.2.2 5 "Carol" (by decide)⟩

/-- C9: with the socket readyState above 1, createSession, joinSession,
changeTopic and castVote all send nothing and raise nothing, while
createSession and joinSession still overwrite the locally stored name. -/
theorem c9_silent_drop_on_closed_socket (st : ClientState) (ready : Nat)
    (name card : String) (sid : Option Nat) (v : Vote) (h : 1 < ready) :
    (createSession st ready name).2 = none ∧
    (createSession st ready name).1.session.my_name = name ∧
    (joinSession st ready sid name).2 = none ∧
    (joinSession st ready sid name).1.session.my_name = name ∧
    (changeTopic st ready card).2 = none ∧
    (castVote st ready v).2 = none := by
  have hs : ∀ m : OutMsg, sendJson ready m = none := by
    intro m
    unfold sendJson
    rw [if_neg (by omega)]
  exact ⟨hs _, rfl, hs _, rfl, hs _, hs _⟩

/-- C9 witness: with readyState 3 (closed), all four requests from the
blank client send nothing, and the name Carol still lands in the local
state. -/
theorem c9_silent_drop_on_closed_socket_witness :
    (createSession blankClient 3 "Carol").2 = none ∧
    (createSession blankClient 3 "Carol").1.session.my_name = "Carol" ∧
    (joinSession blankClient 3 (some 5) "Carol").2 = none ∧
    (joinSession blankClient 3 (some 5) "Carol").1.session.my_name = "Carol" ∧
    (changeTopic blankClient 3 "card").2 = none ∧
    (castVote blankClient 3 Vote.Five).2 = none :=
  c9_silent_drop_on_closed_socket blankClient 3 "Carol" "card" (some 5)
    Vote.Five (by decide)

end Compoker
